import Mathlib

/-!
Shallow embedding of the Modbus TCP session layer of libmodbus-cpp
(`src/src/modbus_connection.cpp`, `src/include/libmodbus_cpp/modbus_connection.hpp`).

The session state is the three data members of `ModbusConnection`
(`ctx_`, `connected_`, `last_error_`); the external libmodbus primitives
(`modbus_connect`, `modbus_read_registers`, ...) are modelled as oracles:
a function from the attempt index (how many times the primitive has been
invoked so far in this call) to the outcome of that invocation.
Every observable interaction with the outside world (a primitive call,
a socket drain, a retry sleep) is recorded in an event trace, which is
how "the drain routine is invoked exactly once, between the two attempts"
and similar test-double properties are stated.
-/

namespace caparoc

/-! Error-code constants, from libmodbus's `modbus.h` (external collaborator). -/

def MODBUS_ENOBASE : Nat := 112345678

/-- Code `EMBXILFUN` from modbus.h: `MODBUS_ENOBASE + MODBUS_EXCEPTION_ILLEGAL_FUNCTION`. -/
def EMBXILFUN : Nat := MODBUS_ENOBASE + 1

/-- Code `EMBXGTAR` from modbus.h: `MODBUS_ENOBASE + MODBUS_EXCEPTION_GATEWAY_TARGET` (0x0B). -/
def EMBXGTAR : Nat := MODBUS_ENOBASE + 11

def EMBBADCRC : Nat := EMBXGTAR + 1

def EMBBADDATA : Nat := EMBXGTAR + 2

def EMBBADEXC : Nat := EMBXGTAR + 3

def EMBUNKEXC : Nat := EMBXGTAR + 4

def EMBMDATA : Nat := EMBXGTAR + 5

def EMBBADSLAVE : Nat := EMBXGTAR + 6

/-- Linux errno `EWOULDBLOCK` (same value as `EAGAIN`). -/
def EWOULDBLOCK : Nat := 11

def EAGAIN : Nat := 11

/-- Model of libmodbus's `modbus_strerror` (external collaborator): a pure
function from an error code to its human-readable description.  The known
libmodbus codes are mapped to their real strings; every other code maps to a
fixed placeholder (the real function falls back to the system `strerror`,
whose exact text the session layer never inspects). -/
def modbus_strerror (errnum : Nat) : String :=
  if errnum == EMBXILFUN then "Illegal function"
  else if errnum == EMBBADCRC then "Invalid CRC"
  else if errnum == EMBBADDATA then "Invalid data"
  else if errnum == EMBBADEXC then "Invalid exception code"
  else if errnum == EMBUNKEXC then "Unknown exception code"
  else if errnum == EMBMDATA then "Too many data"
  else if errnum == EMBBADSLAVE then "Response not from requested slave"
  else "Unknown error"

/-- Translation of `is_retryable_modbus_data_error` (modbus_connection.cpp,
lines 14-21): the set of data-layer transient error codes. -/
def is_retryable_modbus_data_error (error_code : Nat) : Bool :=
  error_code == EMBBADDATA ||
  error_code == EMBMDATA ||
  error_code == EMBBADCRC ||
  error_code == EMBBADEXC ||
  error_code == EMBUNKEXC

/-- Observable interactions of one wrapped call with the outside world:
`call` is one invocation of the underlying protocol primitive, `drain` is one
invocation of `drain_socket_nonblocking`, `sleep` is one `usleep(100000)`
inside `connect`. -/
inductive Event where
  | call : Event
  | drain : Event
  | sleep : Event
deriving DecidableEq, Repr

/-- Outcome of one invocation of a read/write primitive (the closure passed to
`execute_with_data_error_retry`): `ok v` is a non-(-1) return, with `v` the
data the primitive stored into the caller-supplied buffer (libmodbus populates
the destination buffer only on success); `err code` is a `-1` return with
`errno` equal to `code`. -/
inductive PrimOutcome (α : Type) where
  | ok : α → PrimOutcome α
  | err : Nat → PrimOutcome α
deriving DecidableEq, Repr

/-- Outcome of one invocation of a primitive that returns `0`/`-1` with no
output buffer (`modbus_connect`, `modbus_set_slave`). -/
inductive CallOutcome where
  | ok : CallOutcome
  | err : Nat → CallOutcome
deriving DecidableEq, Repr

/-- Result of `execute_with_data_error_retry`: `result` is `some v` when the
helper returned `true` (with `v` the successful primitive's buffer content)
and `none` when it returned `false`; `newError` is the string assigned to the
`last_error` reference, when one was assigned; `trace` is the sequence of
observable interactions. -/
structure RetryResult (α : Type) where
  result : Option α
  newError : Option String
  trace : List Event
deriving DecidableEq, Repr

/-- Translation of the `for (int attempt = 0; attempt < max_attempts; ++attempt)`
loop body of `execute_with_data_error_retry` (modbus_connection.cpp, lines
61-77) together with the fall-through after the loop (lines 79-80).
`operation n` is the outcome of the `(n+1)`-th invocation of the primitive
closure.  (The source binder is named `error_prefix`; it is shortened here.) -/
def executeLoop {α : Type} (operation : Nat → PrimOutcome α) (error_pfx : String)
    (max_attempts attempt : Nat) (trace : List Event) : RetryResult α :=
  if _h : attempt < max_attempts then
    match operation attempt with
    | .ok v => { result := some v, newError := none, trace := trace ++ [.call] }
    | .err error_code =>
      if attempt == 0 && is_retryable_modbus_data_error error_code then
        executeLoop operation error_pfx max_attempts (attempt + 1)
          (trace ++ [.call, .drain])
      else
        { result := none,
          newError := some (error_pfx ++ modbus_strerror error_code),
          trace := trace ++ [.call] }
  else
    { result := none, newError := some (error_pfx ++ "retry exhausted"),
      trace := trace }
termination_by max_attempts - attempt
decreasing_by omega

/-- Translation of `execute_with_data_error_retry` (modbus_connection.cpp,
lines 54-81): `constexpr int max_attempts = 2`, loop starting at attempt 0. -/
def execute_with_data_error_retry {α : Type} (operation : Nat → PrimOutcome α)
    (error_pfx : String) : RetryResult α :=
  executeLoop operation error_pfx 2 0 []

/-- Session state: the three data members of `ModbusConnection`
(modbus_connection.hpp, lines 183-187).  `ctx_ = true` models a non-null
`modbus_t *` handle. -/
structure ModbusConnection where
  ctx_ : Bool
  connected_ : Bool
  last_error_ : String
deriving DecidableEq, Repr

/-- Translation of the constructor (modbus_connection.cpp, lines 84-92).
`alloc_ok` is the outcome of the external `modbus_new_tcp` allocation. -/
def ModbusConnection.construct (_ip_address : String) (_port : Nat)
    (alloc_ok : Bool) : ModbusConnection :=
  if alloc_ok then { ctx_ := true, connected_ := false, last_error_ := "" }
  else { ctx_ := false, connected_ := false,
         last_error_ := "Failed to create MODBUS context" }

/-- Effect of the `std::string &last_error` reference parameter of
`execute_with_data_error_retry` on the session: the string is assigned
exactly when the helper produced a `newError`. -/
def applyNewError (s : ModbusConnection) (e : Option String) : ModbusConnection :=
  match e with
  | none => s
  | some msg => { s with last_error_ := msg }

/-- Translation of `ModbusConnection::disconnect` (modbus_connection.cpp,
lines 179-186); `modbus_close` is an external call with no modelled state. -/
def ModbusConnection.disconnect (s : ModbusConnection) : ModbusConnection :=
  if s.ctx_ && s.connected_ then { s with connected_ := false } else s

/-- Translation of the destructor (modbus_connection.cpp, lines 94-105):
disconnect if connected, then free and null the handle. -/
def ModbusConnection.destruct (s : ModbusConnection) : ModbusConnection :=
  let s1 := if s.connected_ then s.disconnect else s
  if s1.ctx_ then { s1 with ctx_ := false } else s1

/-- Translation of the move constructor (modbus_connection.cpp, lines
107-113): returns (constructed object, moved-from object).  The moved-from
`std::string` is left in a valid but unspecified state, modelled as empty. -/
def ModbusConnection.moveCtor (other : ModbusConnection) :
    ModbusConnection × ModbusConnection :=
  ({ ctx_ := other.ctx_, connected_ := other.connected_,
     last_error_ := other.last_error_ },
   { ctx_ := false, connected_ := false, last_error_ := "" })

/-- Translation of the move assignment operator (modbus_connection.cpp, lines
115-136) in the `this != &other` case: the target disconnects and frees its
own resources (external calls, no modelled state beyond the stolen fields),
then steals the source's fields; the source is nulled.  Returns
(assigned-to object, moved-from object). -/
def ModbusConnection.moveAssign (_self other : ModbusConnection) :
    ModbusConnection × ModbusConnection :=
  ({ ctx_ := other.ctx_, connected_ := other.connected_,
     last_error_ := other.last_error_ },
   { ctx_ := false, connected_ := false, last_error_ := "" })

/-- Result of `ModbusConnection::connect`. -/
structure ConnectResult where
  success : Bool
  state : ModbusConnection
  trace : List Event
deriving DecidableEq, Repr

/-- Translation of the `for (int attempt = 0; attempt < max_retries; ++attempt)`
loop of `ModbusConnection::connect` (modbus_connection.cpp, lines 153-176),
including the `return false` fall-through after the loop.  `out n` is the
outcome of the `(n+1)`-th `modbus_connect` invocation. -/
def connectLoop (s : ModbusConnection) (out : Nat → CallOutcome)
    (max_retries attempt : Nat) (trace : List Event) : ConnectResult :=
  if _h : attempt < max_retries then
    match out attempt with
    | .ok =>
      { success := true, state := { s with connected_ := true },
        trace := trace ++ [.call] }
    | .err err =>
      if (err = EWOULDBLOCK ∨ err = EAGAIN) ∧ attempt < max_retries - 1 then
        connectLoop s out max_retries (attempt + 1) (trace ++ [.call, .sleep])
      else
        { success := false,
          state := { s with
            last_error_ := "Connection failed: " ++ modbus_strerror err },
          trace := trace ++ [.call] }
  else
    { success := false, state := s, trace := trace }
termination_by max_retries - attempt
decreasing_by omega

/-- Translation of `ModbusConnection::connect` (modbus_connection.cpp, lines
138-177): null-handle guard, idempotence guard, then the bounded retry loop
with `const int max_retries = 3`. -/
def ModbusConnection.connect (s : ModbusConnection) (out : Nat → CallOutcome) :
    ConnectResult :=
  if !s.ctx_ then
    { success := false, state := { s with last_error_ := "Invalid MODBUS context" },
      trace := [] }
  else if s.connected_ then
    { success := true, state := s, trace := [] }
  else
    connectLoop s out 3 0 []

/-- Result of one wrapped read/write operation: the returned `bool`, the
session state afterwards, and the trace of primitive/drain interactions. -/
structure WrapResult where
  success : Bool
  state : ModbusConnection
  trace : List Event
deriving DecidableEq, Repr

/-- Translation of `ModbusConnection::read_register` (modbus_connection.cpp,
lines 188-199).  `value` is the caller's variable bound to the `uint16_t &`
output parameter; the returned `Nat` is its content after the call. -/
def ModbusConnection.read_register (s : ModbusConnection)
    (prim : Nat → PrimOutcome Nat) (_address : Nat) (value : Nat) :
    WrapResult × Nat :=
  if !s.connected_ then
    ({ success := false, state := { s with last_error_ := "Not connected" },
       trace := [] }, value)
  else
    let r := execute_with_data_error_retry prim "Read failed: "
    ({ success := r.result.isSome, state := applyNewError s r.newError,
       trace := r.trace },
     match r.result with
     | some v => v
     | none => value)

/-- Translation of `ModbusConnection::read_registers` (modbus_connection.cpp,
lines 201-212).  The caller's buffer holds a list of register values. -/
def ModbusConnection.read_registers (s : ModbusConnection)
    (prim : Nat → PrimOutcome (List Nat)) (_address _count : Nat)
    (values : List Nat) : WrapResult × List Nat :=
  if !s.connected_ then
    ({ success := false, state := { s with last_error_ := "Not connected" },
       trace := [] }, values)
  else
    let r := execute_with_data_error_retry prim "Read failed: "
    ({ success := r.result.isSome, state := applyNewError s r.newError,
       trace := r.trace },
     match r.result with
     | some v => v
     | none => values)

/-- Translation of `ModbusConnection::write_register` (modbus_connection.cpp,
lines 214-225). -/
def ModbusConnection.write_register (s : ModbusConnection)
    (prim : Nat → PrimOutcome Unit) (_address _value : Nat) : WrapResult :=
  if !s.connected_ then
    { success := false, state := { s with last_error_ := "Not connected" },
      trace := [] }
  else
    let r := execute_with_data_error_retry prim "Write failed: "
    { success := r.result.isSome, state := applyNewError s r.newError,
      trace := r.trace }

/-- Translation of `ModbusConnection::write_registers` (modbus_connection.cpp,
lines 227-238). -/
def ModbusConnection.write_registers (s : ModbusConnection)
    (prim : Nat → PrimOutcome Unit) (_address _count : Nat)
    (_values : List Nat) : WrapResult :=
  if !s.connected_ then
    { success := false, state := { s with last_error_ := "Not connected" },
      trace := [] }
  else
    let r := execute_with_data_error_retry prim "Write failed: "
    { success := r.result.isSome, state := applyNewError s r.newError,
      trace := r.trace }

/-- Translation of `ModbusConnection::read_coil` (modbus_connection.cpp, lines
240-259): a local `uint8_t coil_value = 0` receives the primitive's byte; the
caller's `bool &value` is assigned `coil_value != 0` only on success.
`value` is the caller's variable; the returned `Bool` is its content after
the call. -/
def ModbusConnection.read_coil (s : ModbusConnection)
    (prim : Nat → PrimOutcome Nat) (_address : Nat) (value : Bool) :
    WrapResult × Bool :=
  if !s.connected_ then
    ({ success := false, state := { s with last_error_ := "Not connected" },
       trace := [] }, value)
  else
    let coil_value0 : Nat := 0
    let r := execute_with_data_error_retry prim "Read coil failed: "
    let coil_value :=
      match r.result with
      | some v => v
      | none => coil_value0
    if !r.result.isSome then
      ({ success := false, state := applyNewError s r.newError,
         trace := r.trace }, value)
    else
      ({ success := true, state := applyNewError s r.newError,
         trace := r.trace }, coil_value != 0)

/-- Translation of `ModbusConnection::read_coils` (modbus_connection.cpp,
lines 261-272).  The caller's buffer holds the packed coil bytes. -/
def ModbusConnection.read_coils (s : ModbusConnection)
    (prim : Nat → PrimOutcome (List Nat)) (_address _count : Nat)
    (values : List Nat) : WrapResult × List Nat :=
  if !s.connected_ then
    ({ success := false, state := { s with last_error_ := "Not connected" },
       trace := [] }, values)
  else
    let r := execute_with_data_error_retry prim "Read coils failed: "
    ({ success := r.result.isSome, state := applyNewError s r.newError,
       trace := r.trace },
     match r.result with
     | some v => v
     | none => values)

/-- Translation of `ModbusConnection::write_coil` (modbus_connection.cpp,
lines 274-285). -/
def ModbusConnection.write_coil (s : ModbusConnection)
    (prim : Nat → PrimOutcome Unit) (_address : Nat) (_state : Bool) :
    WrapResult :=
  if !s.connected_ then
    { success := false, state := { s with last_error_ := "Not connected" },
      trace := [] }
  else
    let r := execute_with_data_error_retry prim "Write coil failed: "
    { success := r.result.isSome, state := applyNewError s r.newError,
      trace := r.trace }

/-- Translation of `ModbusConnection::write_coils` (modbus_connection.cpp,
lines 287-298). -/
def ModbusConnection.write_coils (s : ModbusConnection)
    (prim : Nat → PrimOutcome Unit) (_address _count : Nat)
    (_values : List Nat) : WrapResult :=
  if !s.connected_ then
    { success := false, state := { s with last_error_ := "Not connected" },
      trace := [] }
  else
    let r := execute_with_data_error_retry prim "Write coils failed: "
    { success := r.result.isSome, state := applyNewError s r.newError,
      trace := r.trace }

/-- Translation of `ModbusConnection::set_slave_id` (modbus_connection.cpp,
lines 301-316).  `out` is the outcome of the external `modbus_set_slave`. -/
def ModbusConnection.set_slave_id (s : ModbusConnection) (out : CallOutcome)
    (_slave_id : Int) : Bool × ModbusConnection :=
  if !s.ctx_ then
    (false, { s with last_error_ := "Invalid MODBUS context" })
  else
    match out with
    | .err code =>
      (false, { s with last_error_ := "Set slave failed: " ++ modbus_strerror code })
    | .ok => (true, s)

/-- Translation of `ModbusConnection::get_last_error` (modbus_connection.cpp,
lines 318-321). -/
def ModbusConnection.get_last_error (s : ModbusConnection) : String :=
  s.last_error_

/-- Translation of `ModbusConnection::set_response_timeout`
(modbus_connection.cpp, lines 323-329): the external configuration call
happens only when the handle is non-null; the session state never changes. -/
def ModbusConnection.set_response_timeout (s : ModbusConnection)
    (_seconds _microseconds : Nat) : ModbusConnection :=
  if s.ctx_ then s else s

/-- Session invariant from the spec's data model: a connected session holds a
non-null transport handle. -/
def Inv (s : ModbusConnection) : Prop :=
  s.connected_ = true → s.ctx_ = true

/-! Characterization lemmas: the two bounded loops, fully unrolled. -/

/-- Complete case analysis of `execute_with_data_error_retry` at its hardcoded
attempt count of 2. -/
theorem execute_characterize {α : Type} (prim : Nat → PrimOutcome α) (p : String) :
    execute_with_data_error_retry prim p =
      match prim 0 with
      | .ok v => { result := some v, newError := none, trace := [.call] }
      | .err c =>
        if is_retryable_modbus_data_error c then
          match prim 1 with
          | .ok v =>
            { result := some v, newError := none, trace := [.call, .drain, .call] }
          | .err c2 =>
            { result := none, newError := some (p ++ modbus_strerror c2),
              trace := [.call, .drain, .call] }
        else
          { result := none, newError := some (p ++ modbus_strerror c),
            trace := [.call] } := by
  cases h0 : prim 0 with
  | ok v => simp [execute_with_data_error_retry, executeLoop, h0]
  | err c =>
    by_cases hr : is_retryable_modbus_data_error c = true
    · cases h1 : prim 1 with
      | ok v => simp [execute_with_data_error_retry, executeLoop, h0, h1, hr]
      | err c2 => simp [execute_with_data_error_retry, executeLoop, h0, h1, hr]
    · simp [execute_with_data_error_retry, executeLoop, h0, hr]

/-- Retryable failure then success: the helper succeeds with trace
call-drain-call and assigns no error. -/
theorem execute_retry_once_success {α : Type} (prim : Nat → PrimOutcome α)
    (p : String) (c : Nat) (hc : is_retryable_modbus_data_error c = true)
    (h0 : prim 0 = .err c) (v : α) (h1 : prim 1 = .ok v) :
    execute_with_data_error_retry prim p =
      { result := some v, newError := none, trace := [.call, .drain, .call] } := by
  rw [execute_characterize, h0]
  simp [hc, h1]

/-- Retryable failure then second failure: the helper fails with trace
call-drain-call and reports the second attempt's error code. -/
theorem execute_retry_both_fail {α : Type} (prim : Nat → PrimOutcome α)
    (p : String) (c c2 : Nat) (hc : is_retryable_modbus_data_error c = true)
    (h0 : prim 0 = .err c) (h1 : prim 1 = .err c2) :
    execute_with_data_error_retry prim p =
      { result := none, newError := some (p ++ modbus_strerror c2),
        trace := [.call, .drain, .call] } := by
  rw [execute_characterize, h0]
  simp [hc, h1]

/-- Non-retryable first failure: the helper fails immediately with a
single-call trace and no drain. -/
theorem execute_nonretryable {α : Type} (prim : Nat → PrimOutcome α)
    (p : String) (c : Nat) (hc : is_retryable_modbus_data_error c = false)
    (h0 : prim 0 = .err c) :
    execute_with_data_error_retry prim p =
      { result := none, newError := some (p ++ modbus_strerror c),
        trace := [.call] } := by
  rw [execute_characterize, h0]
  simp [hc]

/-- Complete case analysis of `ModbusConnection::connect` on a disconnected
session with a valid handle, at its hardcoded retry count of 3. -/
theorem connect_characterize (s : ModbusConnection) (out : Nat → CallOutcome)
    (hctx : s.ctx_ = true) (hconn : s.connected_ = false) :
    s.connect out =
      match out 0 with
      | .ok =>
        { success := true, state := { s with connected_ := true },
          trace := [.call] }
      | .err c0 =>
        if c0 = EWOULDBLOCK ∨ c0 = EAGAIN then
          match out 1 with
          | .ok =>
            { success := true, state := { s with connected_ := true },
              trace := [.call, .sleep, .call] }
          | .err c1 =>
            if c1 = EWOULDBLOCK ∨ c1 = EAGAIN then
              match out 2 with
              | .ok =>
                { success := true, state := { s with connected_ := true },
                  trace := [.call, .sleep, .call, .sleep, .call] }
              | .err c2 =>
                { success := false,
                  state := { s with
                    last_error_ := "Connection failed: " ++ modbus_strerror c2 },
                  trace := [.call, .sleep, .call, .sleep, .call] }
            else
              { success := false,
                state := { s with
                  last_error_ := "Connection failed: " ++ modbus_strerror c1 },
                trace := [.call, .sleep, .call] }
        else
          { success := false,
            state := { s with
              last_error_ := "Connection failed: " ++ modbus_strerror c0 },
            trace := [.call] } := by
  cases h0 : out 0 with
  | ok => simp [ModbusConnection.connect, connectLoop, hctx, hconn, h0]
  | err c0 =>
    by_cases hwb0 : c0 = EWOULDBLOCK ∨ c0 = EAGAIN
    · cases h1 : out 1 with
      | ok => simp [ModbusConnection.connect, connectLoop, hctx, hconn, h0, h1, hwb0]
      | err c1 =>
        by_cases hwb1 : c1 = EWOULDBLOCK ∨ c1 = EAGAIN
        · cases h2 : out 2 with
          | ok =>
            simp [ModbusConnection.connect, connectLoop, hctx, hconn, h0, h1, h2,
              hwb0, hwb1]
          | err c2 =>
            simp [ModbusConnection.connect, connectLoop, hctx, hconn, h0, h1, h2,
              hwb0, hwb1]
        · simp [ModbusConnection.connect, connectLoop, hctx, hconn, h0, h1, hwb0, hwb1]
    · simp [ModbusConnection.connect, connectLoop, hctx, hconn, h0, hwb0]

/-! String facts used to show the "retry exhausted" message is never produced. -/

/-- Every string `modbus_strerror` can produce differs in length from
"retry exhausted". -/
theorem modbus_strerror_length_ne (c : Nat) :
    (modbus_strerror c).length ≠ ("retry exhausted" : String).length := by
  unfold modbus_strerror
  repeat' split
  all_goals decide

/-- No error description equals the "retry exhausted" text, even after the
per-operation prefix is prepended. -/
theorem append_ne_retry_exhausted (p : String) (c : Nat) :
    p ++ modbus_strerror c ≠ p ++ "retry exhausted" := by
  intro h
  have h2 := congrArg String.length h
  rw [String.length_append, String.length_append] at h2
  exact modbus_strerror_length_ne c (by omega)

/-! Concrete stub oracles used by the witnesses. -/

/-- Stub register-read primitive: fails once with `EMBBADDATA`, then succeeds. -/
def stubOnceN : Nat → PrimOutcome Nat :=
  fun n => if n == 0 then .err EMBBADDATA else .ok 7

/-- Stub batch-read primitive: fails once with `EMBBADDATA`, then succeeds. -/
def stubOnceL : Nat → PrimOutcome (List Nat) :=
  fun n => if n == 0 then .err EMBBADDATA else .ok [1, 0]

/-- Stub write primitive: fails once with `EMBBADDATA`, then succeeds. -/
def stubOnceU : Nat → PrimOutcome Unit :=
  fun n => if n == 0 then .err EMBBADDATA else .ok ()

/-- Stub register-read primitive: fails with `EMBBADCRC` on every attempt. -/
def stubTwiceN : Nat → PrimOutcome Nat := fun _ => .err EMBBADCRC

/-- Stub batch-read primitive: fails with `EMBBADCRC` on every attempt. -/
def stubTwiceL : Nat → PrimOutcome (List Nat) := fun _ => .err EMBBADCRC

/-- Stub write primitive: fails with `EMBBADCRC` on every attempt. -/
def stubTwiceU : Nat → PrimOutcome Unit := fun _ => .err EMBBADCRC

/-- Stub register-read primitive: fails with errno 5 (EIO), which is outside
the data-layer transient set. -/
def stubFatalN : Nat → PrimOutcome Nat := fun _ => .err 5

/-- Stub batch-read primitive: fails with errno 5. -/
def stubFatalL : Nat → PrimOutcome (List Nat) := fun _ => .err 5

/-- Stub write primitive: fails with errno 5. -/
def stubFatalU : Nat → PrimOutcome Unit := fun _ => .err 5

/-- C1: on a connected session, when the primitive fails with a data-layer
transient error code on the first attempt and succeeds on the second, every
wrapped read/write operation returns success, and the socket drain routine
runs exactly once, between the two primitive invocations (trace
call-drain-call). -/
theorem C1_transient_then_success_drains_once
    (s : ModbusConnection) (hconn : s.connected_ = true)
    (c : Nat) (hc : is_retryable_modbus_data_error c = true)
    (primN : Nat → PrimOutcome Nat) (primL : Nat → PrimOutcome (List Nat))
    (primU : Nat → PrimOutcome Unit)
    (h0N : primN 0 = .err c) (h1N : ∃ v, primN 1 = .ok v)
    (h0L : primL 0 = .err c) (h1L : ∃ v, primL 1 = .ok v)
    (h0U : primU 0 = .err c) (h1U : primU 1 = .ok ())
    (address count wv v0 : Nat) (vl0 : List Nat) (b0 ws : Bool) :
    ((s.read_register primN address v0).1.success = true ∧
      (s.read_register primN address v0).1.trace = [.call, .drain, .call]) ∧
    ((s.read_registers primL address count vl0).1.success = true ∧
      (s.read_registers primL address count vl0).1.trace = [.call, .drain, .call]) ∧
    ((s.write_register primU address wv).success = true ∧
      (s.write_register primU address wv).trace = [.call, .drain, .call]) ∧
    ((s.write_registers primU address count vl0).success = true ∧
      (s.write_registers primU address count vl0).trace = [.call, .drain, .call]) ∧
    ((s.read_coil primN address b0).1.success = true ∧
      (s.read_coil primN address b0).1.trace = [.call, .drain, .call]) ∧
    ((s.read_coils primL address count vl0).1.success = true ∧
      (s.read_coils primL address count vl0).1.trace = [.call, .drain, .call]) ∧
    ((s.write_coil primU address ws).success = true ∧
      (s.write_coil primU address ws).trace = [.call, .drain, .call]) ∧
    ((s.write_coils primU address count vl0).success = true ∧
      (s.write_coils primU address count vl0).trace = [.call, .drain, .call]) := by
  obtain ⟨vN, h1N⟩ := h1N
  obtain ⟨vL, h1L⟩ := h1L
  have eN : ∀ p, execute_with_data_error_retry primN p =
      { result := some vN, newError := none, trace := [.call, .drain, .call] } :=
    fun p => execute_retry_once_success primN p c hc h0N vN h1N
  have eL : ∀ p, execute_with_data_error_retry primL p =
      { result := some vL, newError := none, trace := [.call, .drain, .call] } :=
    fun p => execute_retry_once_success primL p c hc h0L vL h1L
  have eU : ∀ p, execute_with_data_error_retry primU p =
      { result := some (), newError := none, trace := [.call, .drain, .call] } :=
    fun p => execute_retry_once_success primU p c hc h0U () h1U
  simp [ModbusConnection.read_register, ModbusConnection.read_registers,
    ModbusConnection.write_register, ModbusConnection.write_registers,
    ModbusConnection.read_coil, ModbusConnection.read_coils,
    ModbusConnection.write_coil, ModbusConnection.write_coils,
    hconn, eN, eL, eU, applyNewError]

/-- Witness for C1 at a concrete connected session and fail-once stubs. -/
theorem C1_witness :
    (⟨true, true, ""⟩ : ModbusConnection).connected_ = true ∧
    is_retryable_modbus_data_error EMBBADDATA = true ∧
    ((ModbusConnection.read_register ⟨true, true, ""⟩ stubOnceN 0 0).1.success = true ∧
      (ModbusConnection.read_register ⟨true, true, ""⟩ stubOnceN 0 0).1.trace =
        [.call, .drain, .call]) :=
  ⟨rfl, by decide,
   (C1_transient_then_success_drains_once ⟨true, true, ""⟩ rfl EMBBADDATA (by decide)
      stubOnceN stubOnceL stubOnceU rfl ⟨7, rfl⟩ rfl ⟨[1, 0], rfl⟩ rfl rfl
      0 0 0 0 [] false false).1⟩

/-- C2: on a connected session, when the primitive fails with a data-layer
transient code on both attempts, every wrapped read/write operation returns
failure, the drain routine runs exactly once (after the first failure only:
trace call-drain-call), and `last_error_` is the operation's prefix followed
by the description of the second attempt's error code. -/
theorem C2_transient_twice_fails_drains_once
    (s : ModbusConnection) (hconn : s.connected_ = true)
    (c c2 : Nat) (hc : is_retryable_modbus_data_error c = true)
    (_hc2 : is_retryable_modbus_data_error c2 = true)
    (primN : Nat → PrimOutcome Nat) (primL : Nat → PrimOutcome (List Nat))
    (primU : Nat → PrimOutcome Unit)
    (h0N : primN 0 = .err c) (h1N : primN 1 = .err c2)
    (h0L : primL 0 = .err c) (h1L : primL 1 = .err c2)
    (h0U : primU 0 = .err c) (h1U : primU 1 = .err c2)
    (address count wv v0 : Nat) (vl0 : List Nat) (b0 ws : Bool) :
    ((s.read_register primN address v0).1.success = false ∧
      (s.read_register primN address v0).1.trace = [.call, .drain, .call] ∧
      (s.read_register primN address v0).1.state.last_error_ =
        "Read failed: " ++ modbus_strerror c2) ∧
    ((s.read_registers primL address count vl0).1.success = false ∧
      (s.read_registers primL address count vl0).1.trace = [.call, .drain, .call] ∧
      (s.read_registers primL address count vl0).1.state.last_error_ =
        "Read failed: " ++ modbus_strerror c2) ∧
    ((s.write_register primU address wv).success = false ∧
      (s.write_register primU address wv).trace = [.call, .drain, .call] ∧
      (s.write_register primU address wv).state.last_error_ =
        "Write failed: " ++ modbus_strerror c2) ∧
    ((s.write_registers primU address count vl0).success = false ∧
      (s.write_registers primU address count vl0).trace = [.call, .drain, .call] ∧
      (s.write_registers primU address count vl0).state.last_error_ =
        "Write failed: " ++ modbus_strerror c2) ∧
    ((s.read_coil primN address b0).1.success = false ∧
      (s.read_coil primN address b0).1.trace = [.call, .drain, .call] ∧
      (s.read_coil primN address b0).1.state.last_error_ =
        "Read coil failed: " ++ modbus_strerror c2) ∧
    ((s.read_coils primL address count vl0).1.success = false ∧
      (s.read_coils primL address count vl0).1.trace = [.call, .drain, .call] ∧
      (s.read_coils primL address count vl0).1.state.last_error_ =
        "Read coils failed: " ++ modbus_strerror c2) ∧
    ((s.write_coil primU address ws).success = false ∧
      (s.write_coil primU address ws).trace = [.call, .drain, .call] ∧
      (s.write_coil primU address ws).state.last_error_ =
        "Write coil failed: " ++ modbus_strerror c2) ∧
    ((s.write_coils primU address count vl0).success = false ∧
      (s.write_coils primU address count vl0).trace = [.call, .drain, .call] ∧
      (s.write_coils primU address count vl0).state.last_error_ =
        "Write coils failed: " ++ modbus_strerror c2) := by
  have eN : ∀ p, execute_with_data_error_retry primN p =
      { result := none, newError := some (p ++ modbus_strerror c2),
        trace := [.call, .drain, .call] } :=
    fun p => execute_retry_both_fail primN p c c2 hc h0N h1N
  have eL : ∀ p, execute_with_data_error_retry primL p =
      { result := none, newError := some (p ++ modbus_strerror c2),
        trace := [.call, .drain, .call] } :=
    fun p => execute_retry_both_fail primL p c c2 hc h0L h1L
  have eU : ∀ p, execute_with_data_error_retry primU p =
      { result := none, newError := some (p ++ modbus_strerror c2),
        trace := [.call, .drain, .call] } :=
    fun p => execute_retry_both_fail primU p c c2 hc h0U h1U
  simp [ModbusConnection.read_register, ModbusConnection.read_registers,
    ModbusConnection.write_register, ModbusConnection.write_registers,
    ModbusConnection.read_coil, ModbusConnection.read_coils,
    ModbusConnection.write_coil, ModbusConnection.write_coils,
    hconn, eN, eL, eU, applyNewError]

/-- Witness for C2 at a concrete connected session and always-fail stubs. -/
theorem C2_witness :
    (⟨true, true, ""⟩ : ModbusConnection).connected_ = true ∧
    is_retryable_modbus_data_error EMBBADCRC = true ∧
    ((ModbusConnection.read_register ⟨true, true, ""⟩ stubTwiceN 0 0).1.success = false ∧
      (ModbusConnection.read_register ⟨true, true, ""⟩ stubTwiceN 0 0).1.trace =
        [.call, .drain, .call] ∧
      (ModbusConnection.read_register ⟨true, true, ""⟩ stubTwiceN 0 0).1.state.last_error_ =
        "Read failed: " ++ modbus_strerror EMBBADCRC) :=
  ⟨rfl, by decide,
   (C2_transient_twice_fails_drains_once ⟨true, true, ""⟩ rfl EMBBADCRC EMBBADCRC
      (by decide) (by decide) stubTwiceN stubTwiceL stubTwiceU
      rfl rfl rfl rfl rfl rfl 0 0 0 0 [] false false).1⟩

/-- C3: on a connected session, when the primitive fails on the first attempt
with a code outside the data-layer transient set, every wrapped read/write
operation returns failure immediately: no drain, no second attempt (trace is a
single call), and `last_error_` is the operation's prefix plus the underlying
error description. -/
theorem C3_nonretryable_fails_immediately
    (s : ModbusConnection) (hconn : s.connected_ = true)
    (c : Nat) (hc : is_retryable_modbus_data_error c = false)
    (primN : Nat → PrimOutcome Nat) (primL : Nat → PrimOutcome (List Nat))
    (primU : Nat → PrimOutcome Unit)
    (h0N : primN 0 = .err c) (h0L : primL 0 = .err c) (h0U : primU 0 = .err c)
    (address count wv v0 : Nat) (vl0 : List Nat) (b0 ws : Bool) :
    ((s.read_register primN address v0).1.success = false ∧
      (s.read_register primN address v0).1.trace = [.call] ∧
      (s.read_register primN address v0).1.state.last_error_ =
        "Read failed: " ++ modbus_strerror c) ∧
    ((s.read_registers primL address count vl0).1.success = false ∧
      (s.read_registers primL address count vl0).1.trace = [.call] ∧
      (s.read_registers primL address count vl0).1.state.last_error_ =
        "Read failed: " ++ modbus_strerror c) ∧
    ((s.write_register primU address wv).success = false ∧
      (s.write_register primU address wv).trace = [.call] ∧
      (s.write_register primU address wv).state.last_error_ =
        "Write failed: " ++ modbus_strerror c) ∧
    ((s.write_registers primU address count vl0).success = false ∧
      (s.write_registers primU address count vl0).trace = [.call] ∧
      (s.write_registers primU address count vl0).state.last_error_ =
        "Write failed: " ++ modbus_strerror c) ∧
    ((s.read_coil primN address b0).1.success = false ∧
      (s.read_coil primN address b0).1.trace = [.call] ∧
      (s.read_coil primN address b0).1.state.last_error_ =
        "Read coil failed: " ++ modbus_strerror c) ∧
    ((s.read_coils primL address count vl0).1.success = false ∧
      (s.read_coils primL address count vl0).1.trace = [.call] ∧
      (s.read_coils primL address count vl0).1.state.last_error_ =
        "Read coils failed: " ++ modbus_strerror c) ∧
    ((s.write_coil primU address ws).success = false ∧
      (s.write_coil primU address ws).trace = [.call] ∧
      (s.write_coil primU address ws).state.last_error_ =
        "Write coil failed: " ++ modbus_strerror c) ∧
    ((s.write_coils primU address count vl0).success = false ∧
      (s.write_coils primU address count vl0).trace = [.call] ∧
      (s.write_coils primU address count vl0).state.last_error_ =
        "Write coils failed: " ++ modbus_strerror c) := by
  have eN : ∀ p, execute_with_data_error_retry primN p =
      { result := none, newError := some (p ++ modbus_strerror c),
        trace := [.call] } :=
    fun p => execute_nonretryable primN p c hc h0N
  have eL : ∀ p, execute_with_data_error_retry primL p =
      { result := none, newError := some (p ++ modbus_strerror c),
        trace := [.call] } :=
    fun p => execute_nonretryable primL p c hc h0L
  have eU : ∀ p, execute_with_data_error_retry primU p =
      { result := none, newError := some (p ++ modbus_strerror c),
        trace := [.call] } :=
    fun p => execute_nonretryable primU p c hc h0U
  simp [ModbusConnection.read_register, ModbusConnection.read_registers,
    ModbusConnection.write_register, ModbusConnection.write_registers,
    ModbusConnection.read_coil, ModbusConnection.read_coils,
    ModbusConnection.write_coil, ModbusConnection.write_coils,
    hconn, eN, eL, eU, applyNewError]

/-- Witness for C3 at a concrete connected session and an errno-5 (EIO) stub. -/
theorem C3_witness :
    (⟨true, true, ""⟩ : ModbusConnection).connected_ = true ∧
    is_retryable_modbus_data_error 5 = false ∧
    ((ModbusConnection.read_register ⟨true, true, ""⟩ stubFatalN 0 0).1.success = false ∧
      (ModbusConnection.read_register ⟨true, true, ""⟩ stubFatalN 0 0).1.trace = [.call] ∧
      (ModbusConnection.read_register ⟨true, true, ""⟩ stubFatalN 0 0).1.state.last_error_ =
        "Read failed: " ++ modbus_strerror 5) :=
  ⟨rfl, by decide,
   (C3_nonretryable_fails_immediately ⟨true, true, ""⟩ rfl 5 (by decide)
      stubFatalN stubFatalL stubFatalU rfl rfl rfl 0 0 0 0 [] false false).1⟩

/-- C4: every read/write wrapper invoked while `connected_` is false returns
failure with `last_error_` exactly "Not connected" and an empty trace: the
underlying primitive is never invoked and no drain happens. -/
theorem C4_not_connected_fails_fast
    (s : ModbusConnection) (hconn : s.connected_ = false)
    (primN : Nat → PrimOutcome Nat) (primL : Nat → PrimOutcome (List Nat))
    (primU : Nat → PrimOutcome Unit)
    (address count wv v0 : Nat) (vl0 : List Nat) (b0 ws : Bool) :
    ((s.read_register primN address v0).1.success = false ∧
      (s.read_register primN address v0).1.state.last_error_ = "Not connected" ∧
      (s.read_register primN address v0).1.trace = []) ∧
    ((s.read_registers primL address count vl0).1.success = false ∧
      (s.read_registers primL address count vl0).1.state.last_error_ = "Not connected" ∧
      (s.read_registers primL address count vl0).1.trace = []) ∧
    ((s.write_register primU address wv).success = false ∧
      (s.write_register primU address wv).state.last_error_ = "Not connected" ∧
      (s.write_register primU address wv).trace = []) ∧
    ((s.write_registers primU address count vl0).success = false ∧
      (s.write_registers primU address count vl0).state.last_error_ = "Not connected" ∧
      (s.write_registers primU address count vl0).trace = []) ∧
    ((s.read_coil primN address b0).1.success = false ∧
      (s.read_coil primN address b0).1.state.last_error_ = "Not connected" ∧
      (s.read_coil primN address b0).1.trace = []) ∧
    ((s.read_coils primL address count vl0).1.success = false ∧
      (s.read_coils primL address count vl0).1.state.last_error_ = "Not connected" ∧
      (s.read_coils primL address count vl0).1.trace = []) ∧
    ((s.write_coil primU address ws).success = false ∧
      (s.write_coil primU address ws).state.last_error_ = "Not connected" ∧
      (s.write_coil primU address ws).trace = []) ∧
    ((s.write_coils primU address count vl0).success = false ∧
      (s.write_coils primU address count vl0).state.last_error_ = "Not connected" ∧
      (s.write_coils primU address count vl0).trace = []) := by
  simp [ModbusConnection.read_register, ModbusConnection.read_registers,
    ModbusConnection.write_register, ModbusConnection.write_registers,
    ModbusConnection.read_coil, ModbusConnection.read_coils,
    ModbusConnection.write_coil, ModbusConnection.write_coils, hconn]

/-- Witness for C4 at a concrete disconnected session. -/
theorem C4_witness :
    (⟨true, false, ""⟩ : ModbusConnection).connected_ = false ∧
    ((ModbusConnection.read_register ⟨true, false, ""⟩ stubOnceN 0 0).1.success = false ∧
      (ModbusConnection.read_register ⟨true, false, ""⟩ stubOnceN 0 0).1.state.last_error_ =
        "Not connected" ∧
      (ModbusConnection.read_register ⟨true, false, ""⟩ stubOnceN 0 0).1.trace = []) :=
  ⟨rfl,
   (C4_not_connected_fails_fast ⟨true, false, ""⟩ rfl stubOnceN stubOnceL stubOnceU
      0 0 0 0 [] false false).1⟩

/-- Stub `modbus_connect` oracle: would-block on the first two attempts,
success on the third. -/
def stubConnectWB2 : Nat → CallOutcome :=
  fun n => if n < 2 then .err EWOULDBLOCK else .ok

/-- Stub `modbus_connect` oracle: would-block on every attempt. -/
def stubConnectWB : Nat → CallOutcome := fun _ => .err EWOULDBLOCK

/-- C5: on a disconnected session with a valid handle, `connect` attempts the
underlying open at most 3 times; would-block on the first two attempts and
success on the third yields success with exactly two sleeps; would-block on
all three attempts yields failure; a non-would-block failure on the first
attempt is terminal immediately (single call, no sleep); and every terminal
failure sets `last_error_` to "Connection failed: " plus the underlying error
description. -/
theorem C5_connect_retry_policy
    (s : ModbusConnection) (out : Nat → CallOutcome)
    (hctx : s.ctx_ = true) (hconn : s.connected_ = false) :
    ((s.connect out).trace.count Event.call ≤ 3) ∧
    (∀ c0 c1, out 0 = .err c0 → (c0 = EWOULDBLOCK ∨ c0 = EAGAIN) →
      out 1 = .err c1 → (c1 = EWOULDBLOCK ∨ c1 = EAGAIN) →
      out 2 = .ok →
      (s.connect out).success = true ∧
      (s.connect out).state.connected_ = true ∧
      (s.connect out).trace = [.call, .sleep, .call, .sleep, .call]) ∧
    (∀ c0 c1 c2, out 0 = .err c0 → (c0 = EWOULDBLOCK ∨ c0 = EAGAIN) →
      out 1 = .err c1 → (c1 = EWOULDBLOCK ∨ c1 = EAGAIN) →
      out 2 = .err c2 →
      (s.connect out).success = false ∧
      (s.connect out).state.last_error_ =
        "Connection failed: " ++ modbus_strerror c2) ∧
    (∀ c0, out 0 = .err c0 → ¬(c0 = EWOULDBLOCK ∨ c0 = EAGAIN) →
      (s.connect out).success = false ∧
      (s.connect out).trace = [.call] ∧
      (s.connect out).state.last_error_ =
        "Connection failed: " ++ modbus_strerror c0) ∧
    ((s.connect out).success = false →
      ∃ c, (s.connect out).state.last_error_ =
        "Connection failed: " ++ modbus_strerror c) := by
  refine ⟨?_, ?_, ?_, ?_, ?_⟩
  · rcases h0 : out 0 with _ | c0
    · have ht : (s.connect out).trace = [.call] := by
        simp [ModbusConnection.connect, connectLoop, hctx, hconn, h0]
      rw [ht]; decide
    · by_cases hwb0 : c0 = EWOULDBLOCK ∨ c0 = EAGAIN
      · rcases h1 : out 1 with _ | c1
        · have ht : (s.connect out).trace = [.call, .sleep, .call] := by
            simp [ModbusConnection.connect, connectLoop, hctx, hconn, h0, h1, hwb0]
          rw [ht]; decide
        · by_cases hwb1 : c1 = EWOULDBLOCK ∨ c1 = EAGAIN
          · rcases h2 : out 2 with _ | c2
            · have ht : (s.connect out).trace =
                  [.call, .sleep, .call, .sleep, .call] := by
                simp [ModbusConnection.connect, connectLoop, hctx, hconn,
                  h0, h1, h2, hwb0, hwb1]
              rw [ht]; decide
            · have ht : (s.connect out).trace =
                  [.call, .sleep, .call, .sleep, .call] := by
                simp [ModbusConnection.connect, connectLoop, hctx, hconn,
                  h0, h1, h2, hwb0, hwb1]
              rw [ht]; decide
          · have ht : (s.connect out).trace = [.call, .sleep, .call] := by
              simp [ModbusConnection.connect, connectLoop, hctx, hconn,
                h0, h1, hwb0, hwb1]
            rw [ht]; decide
      · have ht : (s.connect out).trace = [.call] := by
          simp [ModbusConnection.connect, connectLoop, hctx, hconn, h0, hwb0]
        rw [ht]; decide
  · intro c0 c1 h0 hwb0 h1 hwb1 h2
    simp [ModbusConnection.connect, connectLoop, hctx, hconn, h0, h1, h2, hwb0, hwb1]
  · intro c0 c1 c2 h0 hwb0 h1 hwb1 h2
    simp [ModbusConnection.connect, connectLoop, hctx, hconn, h0, h1, h2, hwb0, hwb1]
  · intro c0 h0 hwb0
    simp [ModbusConnection.connect, connectLoop, hctx, hconn, h0, hwb0]
  · rcases h0 : out 0 with _ | c0
    · intro hfail
      simp [ModbusConnection.connect, connectLoop, hctx, hconn, h0] at hfail
    · by_cases hwb0 : c0 = EWOULDBLOCK ∨ c0 = EAGAIN
      · rcases h1 : out 1 with _ | c1
        · intro hfail
          simp [ModbusConnection.connect, connectLoop, hctx, hconn, h0, h1, hwb0]
            at hfail
        · by_cases hwb1 : c1 = EWOULDBLOCK ∨ c1 = EAGAIN
          · rcases h2 : out 2 with _ | c2
            · intro hfail
              simp [ModbusConnection.connect, connectLoop, hctx, hconn,
                h0, h1, h2, hwb0, hwb1] at hfail
            · intro _
              exact ⟨c2, by
                simp [ModbusConnection.connect, connectLoop, hctx, hconn,
                  h0, h1, h2, hwb0, hwb1]⟩
          · intro _
            exact ⟨c1, by
              simp [ModbusConnection.connect, connectLoop, hctx, hconn,
                h0, h1, hwb0, hwb1]⟩
      · intro _
        exact ⟨c0, by
          simp [ModbusConnection.connect, connectLoop, hctx, hconn, h0, hwb0]⟩

/-- Witness for C5 at a concrete session with a would-block-twice stub. -/
theorem C5_witness :
    (⟨true, false, ""⟩ : ModbusConnection).ctx_ = true ∧
    (⟨true, false, ""⟩ : ModbusConnection).connected_ = false ∧
    stubConnectWB2 0 = .err EWOULDBLOCK ∧ stubConnectWB2 1 = .err EWOULDBLOCK ∧
    stubConnectWB2 2 = .ok ∧
    ((ModbusConnection.connect ⟨true, false, ""⟩ stubConnectWB2).success = true ∧
      (ModbusConnection.connect ⟨true, false, ""⟩ stubConnectWB2).state.connected_ = true ∧
      (ModbusConnection.connect ⟨true, false, ""⟩ stubConnectWB2).trace =
        [.call, .sleep, .call, .sleep, .call]) :=
  ⟨rfl, rfl, by decide, by decide, by decide,
   (C5_connect_retry_policy ⟨true, false, ""⟩ stubConnectWB2 rfl rfl).2.1
     EWOULDBLOCK EWOULDBLOCK (by decide) (Or.inl rfl) (by decide) (Or.inl rfl)
     (by decide)⟩

/-- C6 counterexample: after a failed allocation the handle is null and
`last_error_` is set, but a read operation on that session fails with
"Not connected" — not with an "invalid context" message — because the
read/write wrappers test only the `connected_` flag. -/
theorem C6_counterexample :
    (ModbusConnection.construct "10.0.0.1" 502 false).ctx_ = false ∧
    (ModbusConnection.construct "10.0.0.1" 502 false).last_error_ =
      "Failed to create MODBUS context" ∧
    ((ModbusConnection.construct "10.0.0.1" 502 false).read_register
        stubOnceN 0 0).1.success = false ∧
    ((ModbusConnection.construct "10.0.0.1" 502 false).read_register
        stubOnceN 0 0).1.state.last_error_ = "Not connected" ∧
    "Not connected" ≠ "Invalid MODBUS context" := by
  decide

/-- C6 as amended: when allocation fails the handle is null, `connected_` is
false and `last_error_` is set; thereafter every operation fails fast with no
underlying call and leaves the session unrecoverable (handle stays null,
`connected_` stays false): `connect` and `set_slave_id` fail with
"Invalid MODBUS context", the read/write wrappers fail with "Not connected"
(the session can never become connected), and `set_response_timeout` is a
silent no-op. -/
theorem C6_uninitialized_dead_end
    (s : ModbusConnection) (hctx : s.ctx_ = false) (hconn : s.connected_ = false)
    (ip : String) (port : Nat) (cout : Nat → CallOutcome) (sout : CallOutcome)
    (primN : Nat → PrimOutcome Nat) (primL : Nat → PrimOutcome (List Nat))
    (primU : Nat → PrimOutcome Unit)
    (address count wv v0 slave sec usec : Nat) (vl0 : List Nat) (b0 ws : Bool) :
    ((ModbusConnection.construct ip port false).ctx_ = false ∧
      (ModbusConnection.construct ip port false).connected_ = false ∧
      (ModbusConnection.construct ip port false).last_error_ =
        "Failed to create MODBUS context") ∧
    (s.connect cout =
      { success := false, state := { s with last_error_ := "Invalid MODBUS context" },
        trace := [] }) ∧
    (s.set_slave_id sout slave =
      (false, { s with last_error_ := "Invalid MODBUS context" })) ∧
    (s.set_response_timeout sec usec = s) ∧
    (s.read_register primN address v0 =
      ({ success := false, state := { s with last_error_ := "Not connected" },
         trace := [] }, v0)) ∧
    (s.read_registers primL address count vl0 =
      ({ success := false, state := { s with last_error_ := "Not connected" },
         trace := [] }, vl0)) ∧
    (s.write_register primU address wv =
      { success := false, state := { s with last_error_ := "Not connected" },
        trace := [] }) ∧
    (s.write_registers primU address count vl0 =
      { success := false, state := { s with last_error_ := "Not connected" },
        trace := [] }) ∧
    (s.read_coil primN address b0 =
      ({ success := false, state := { s with last_error_ := "Not connected" },
         trace := [] }, b0)) ∧
    (s.read_coils primL address count vl0 =
      ({ success := false, state := { s with last_error_ := "Not connected" },
         trace := [] }, vl0)) ∧
    (s.write_coil primU address ws =
      { success := false, state := { s with last_error_ := "Not connected" },
        trace := [] }) ∧
    (s.write_coils primU address count vl0 =
      { success := false, state := { s with last_error_ := "Not connected" },
        trace := [] }) := by
  refine ⟨⟨rfl, rfl, rfl⟩, ?_, ?_, ?_, ?_, ?_, ?_, ?_, ?_, ?_, ?_, ?_⟩ <;>
    simp [ModbusConnection.connect, ModbusConnection.set_slave_id,
      ModbusConnection.set_response_timeout, ModbusConnection.read_register,
      ModbusConnection.read_registers, ModbusConnection.write_register,
      ModbusConnection.write_registers, ModbusConnection.read_coil,
      ModbusConnection.read_coils, ModbusConnection.write_coil,
      ModbusConnection.write_coils, hctx, hconn]

/-- Witness for the amended C6 at the session left by a failed construction. -/
theorem C6_witness :
    (ModbusConnection.construct "10.0.0.2" 502 false).ctx_ = false ∧
    (ModbusConnection.construct "10.0.0.2" 502 false).connected_ = false ∧
    ((ModbusConnection.construct "10.0.0.2" 502 false).connect stubConnectWB2 =
      { success := false,
        state := { ModbusConnection.construct "10.0.0.2" 502 false with
          last_error_ := "Invalid MODBUS context" },
        trace := [] }) :=
  ⟨rfl, rfl,
   (C6_uninitialized_dead_end (ModbusConnection.construct "10.0.0.2" 502 false)
      rfl rfl "10.0.0.2" 502 stubConnectWB2 .ok stubOnceN stubOnceL stubOnceU
      0 0 0 0 1 0 0 [] false false).2.1⟩

/-! Frame lemmas: wrapped operations never touch `ctx_` or `connected_`,
and read outputs are populated only on success. -/

theorem applyNewError_ctx (s : ModbusConnection) (e : Option String) :
    (applyNewError s e).ctx_ = s.ctx_ := by
  cases e <;> rfl

theorem applyNewError_connected (s : ModbusConnection) (e : Option String) :
    (applyNewError s e).connected_ = s.connected_ := by
  cases e <;> rfl

theorem read_register_preserves (s : ModbusConnection)
    (prim : Nat → PrimOutcome Nat) (a v : Nat) :
    (s.read_register prim a v).1.state.ctx_ = s.ctx_ ∧
    (s.read_register prim a v).1.state.connected_ = s.connected_ := by
  cases hcn : s.connected_ <;>
    simp [ModbusConnection.read_register, hcn, applyNewError_ctx, applyNewError_connected]

theorem read_registers_preserves (s : ModbusConnection)
    (prim : Nat → PrimOutcome (List Nat)) (a cnt : Nat) (vs : List Nat) :
    (s.read_registers prim a cnt vs).1.state.ctx_ = s.ctx_ ∧
    (s.read_registers prim a cnt vs).1.state.connected_ = s.connected_ := by
  cases hcn : s.connected_ <;>
    simp [ModbusConnection.read_registers, hcn, applyNewError_ctx, applyNewError_connected]

theorem write_register_preserves (s : ModbusConnection)
    (prim : Nat → PrimOutcome Unit) (a v : Nat) :
    (s.write_register prim a v).state.ctx_ = s.ctx_ ∧
    (s.write_register prim a v).state.connected_ = s.connected_ := by
  cases hcn : s.connected_ <;>
    simp [ModbusConnection.write_register, hcn, applyNewError_ctx, applyNewError_connected]

theorem write_registers_preserves (s : ModbusConnection)
    (prim : Nat → PrimOutcome Unit) (a cnt : Nat) (vs : List Nat) :
    (s.write_registers prim a cnt vs).state.ctx_ = s.ctx_ ∧
    (s.write_registers prim a cnt vs).state.connected_ = s.connected_ := by
  cases hcn : s.connected_ <;>
    simp [ModbusConnection.write_registers, hcn, applyNewError_ctx, applyNewError_connected]

theorem read_coil_preserves (s : ModbusConnection)
    (prim : Nat → PrimOutcome Nat) (a : Nat) (b : Bool) :
    (s.read_coil prim a b).1.state.ctx_ = s.ctx_ ∧
    (s.read_coil prim a b).1.state.connected_ = s.connected_ := by
  cases hcn : s.connected_
  · simp [ModbusConnection.read_coil, hcn]
  · rcases hr : (execute_with_data_error_retry prim "Read coil failed: ").result
      with _ | v <;>
      simp [ModbusConnection.read_coil, hcn, hr, applyNewError_ctx,
        applyNewError_connected]

theorem read_coils_preserves (s : ModbusConnection)
    (prim : Nat → PrimOutcome (List Nat)) (a cnt : Nat) (vs : List Nat) :
    (s.read_coils prim a cnt vs).1.state.ctx_ = s.ctx_ ∧
    (s.read_coils prim a cnt vs).1.state.connected_ = s.connected_ := by
  cases hcn : s.connected_ <;>
    simp [ModbusConnection.read_coils, hcn, applyNewError_ctx, applyNewError_connected]

theorem write_coil_preserves (s : ModbusConnection)
    (prim : Nat → PrimOutcome Unit) (a : Nat) (st : Bool) :
    (s.write_coil prim a st).state.ctx_ = s.ctx_ ∧
    (s.write_coil prim a st).state.connected_ = s.connected_ := by
  cases hcn : s.connected_ <;>
    simp [ModbusConnection.write_coil, hcn, applyNewError_ctx, applyNewError_connected]

theorem write_coils_preserves (s : ModbusConnection)
    (prim : Nat → PrimOutcome Unit) (a cnt : Nat) (vs : List Nat) :
    (s.write_coils prim a cnt vs).state.ctx_ = s.ctx_ ∧
    (s.write_coils prim a cnt vs).state.connected_ = s.connected_ := by
  cases hcn : s.connected_ <;>
    simp [ModbusConnection.write_coils, hcn, applyNewError_ctx, applyNewError_connected]

theorem read_register_output (s : ModbusConnection)
    (prim : Nat → PrimOutcome Nat) (a v : Nat) :
    (s.read_register prim a v).1.success = false →
    (s.read_register prim a v).2 = v := by
  cases hcn : s.connected_
  · simp [ModbusConnection.read_register, hcn]
  · rcases hr : (execute_with_data_error_retry prim "Read failed: ").result
      with _ | w <;> simp [ModbusConnection.read_register, hcn, hr]

theorem read_registers_output (s : ModbusConnection)
    (prim : Nat → PrimOutcome (List Nat)) (a cnt : Nat) (vs : List Nat) :
    (s.read_registers prim a cnt vs).1.success = false →
    (s.read_registers prim a cnt vs).2 = vs := by
  cases hcn : s.connected_
  · simp [ModbusConnection.read_registers, hcn]
  · rcases hr : (execute_with_data_error_retry prim "Read failed: ").result
      with _ | w <;> simp [ModbusConnection.read_registers, hcn, hr]

theorem read_coil_output (s : ModbusConnection)
    (prim : Nat → PrimOutcome Nat) (a : Nat) (b : Bool) :
    (s.read_coil prim a b).1.success = false →
    (s.read_coil prim a b).2 = b := by
  cases hcn : s.connected_
  · simp [ModbusConnection.read_coil, hcn]
  · rcases hr : (execute_with_data_error_retry prim "Read coil failed: ").result
      with _ | w <;> simp [ModbusConnection.read_coil, hcn, hr]

theorem read_coils_output (s : ModbusConnection)
    (prim : Nat → PrimOutcome (List Nat)) (a cnt : Nat) (vs : List Nat) :
    (s.read_coils prim a cnt vs).1.success = false →
    (s.read_coils prim a cnt vs).2 = vs := by
  cases hcn : s.connected_
  · simp [ModbusConnection.read_coils, hcn]
  · rcases hr : (execute_with_data_error_retry prim "Read coils failed: ").result
      with _ | w <;> simp [ModbusConnection.read_coils, hcn, hr]

/-- C7: wrapped read/write operations never mutate `ctx_` or `connected_`
(so on failure the only session field that can change is `last_error_`), and
the caller-supplied output value/buffer of the read operations keeps its old
content whenever the operation returns failure. -/
theorem C7_failure_mutates_only_last_error
    (s : ModbusConnection)
    (primN : Nat → PrimOutcome Nat) (primL : Nat → PrimOutcome (List Nat))
    (primU : Nat → PrimOutcome Unit)
    (address count wv v0 : Nat) (vl0 : List Nat) (b0 ws : Bool) :
    ((s.read_register primN address v0).1.state.ctx_ = s.ctx_ ∧
      (s.read_register primN address v0).1.state.connected_ = s.connected_) ∧
    ((s.read_registers primL address count vl0).1.state.ctx_ = s.ctx_ ∧
      (s.read_registers primL address count vl0).1.state.connected_ = s.connected_) ∧
    ((s.write_register primU address wv).state.ctx_ = s.ctx_ ∧
      (s.write_register primU address wv).state.connected_ = s.connected_) ∧
    ((s.write_registers primU address count vl0).state.ctx_ = s.ctx_ ∧
      (s.write_registers primU address count vl0).state.connected_ = s.connected_) ∧
    ((s.read_coil primN address b0).1.state.ctx_ = s.ctx_ ∧
      (s.read_coil primN address b0).1.state.connected_ = s.connected_) ∧
    ((s.read_coils primL address count vl0).1.state.ctx_ = s.ctx_ ∧
      (s.read_coils primL address count vl0).1.state.connected_ = s.connected_) ∧
    ((s.write_coil primU address ws).state.ctx_ = s.ctx_ ∧
      (s.write_coil primU address ws).state.connected_ = s.connected_) ∧
    ((s.write_coils primU address count vl0).state.ctx_ = s.ctx_ ∧
      (s.write_coils primU address count vl0).state.connected_ = s.connected_) ∧
    ((s.read_register primN address v0).1.success = false →
      (s.read_register primN address v0).2 = v0) ∧
    ((s.read_registers primL address count vl0).1.success = false →
      (s.read_registers primL address count vl0).2 = vl0) ∧
    ((s.read_coil primN address b0).1.success = false →
      (s.read_coil primN address b0).2 = b0) ∧
    ((s.read_coils primL address count vl0).1.success = false →
      (s.read_coils primL address count vl0).2 = vl0) :=
  ⟨read_register_preserves s primN address v0,
   read_registers_preserves s primL address count vl0,
   write_register_preserves s primU address wv,
   write_registers_preserves s primU address count vl0,
   read_coil_preserves s primN address b0,
   read_coils_preserves s primL address count vl0,
   write_coil_preserves s primU address ws,
   write_coils_preserves s primU address count vl0,
   read_register_output s primN address v0,
   read_registers_output s primL address count vl0,
   read_coil_output s primN address b0,
   read_coils_output s primL address count vl0⟩

/-- Witness for C7 at a concrete connected session with an always-failing
stub: the state flags are untouched and the coil output keeps its old value. -/
theorem C7_witness :
    ((ModbusConnection.read_coil ⟨true, true, "old"⟩ stubTwiceN 0 true).1.state.ctx_ =
        true ∧
      (ModbusConnection.read_coil ⟨true, true, "old"⟩ stubTwiceN 0 true).1.state.connected_ =
        true) ∧
    (ModbusConnection.read_coil ⟨true, true, "old"⟩ stubTwiceN 0 true).2 = true :=
  ⟨(C7_failure_mutates_only_last_error ⟨true, true, "old"⟩ stubTwiceN stubTwiceL
      stubTwiceU 0 0 0 0 [] true false).2.2.2.2.1,
   (C7_failure_mutates_only_last_error ⟨true, true, "old"⟩ stubTwiceN stubTwiceL
      stubTwiceU 0 0 0 0 [] true false).2.2.2.2.2.2.2.2.2.2.1
     (by simp [ModbusConnection.read_coil,
       execute_retry_both_fail stubTwiceN "Read coil failed: " EMBBADCRC EMBBADCRC
         (by decide) rfl rfl])⟩

/-- C8: with the hardcoded attempt count of 2, `execute_with_data_error_retry`
always returns either via the success path or via the
prefix-plus-error-description failure path; the post-loop "retry exhausted"
branch is unreachable, so `newError` is never the prefix followed by
"retry exhausted". -/
theorem C8_retry_exhausted_unreachable {α : Type}
    (prim : Nat → PrimOutcome α) (p : String) :
    ((∃ v, (execute_with_data_error_retry prim p).result = some v) ∨
      (∃ c, (execute_with_data_error_retry prim p).newError =
        some (p ++ modbus_strerror c))) ∧
    (execute_with_data_error_retry prim p).newError ≠
      some (p ++ "retry exhausted") := by
  rw [execute_characterize]
  rcases h0 : prim 0 with v | c
  · exact ⟨Or.inl ⟨v, rfl⟩, by simp⟩
  · rcases hb : is_retryable_modbus_data_error c with _ | _
    · simp only [hb, Bool.false_eq_true, if_false]
      refine ⟨Or.inr ⟨c, rfl⟩, ?_⟩
      simp [append_ne_retry_exhausted p c]
    · simp only [hb, if_true]
      rcases h1 : prim 1 with v | c2
      · exact ⟨Or.inl ⟨v, rfl⟩, by simp⟩
      · refine ⟨Or.inr ⟨c2, rfl⟩, ?_⟩
        simp [append_ne_retry_exhausted p c2]

/-- Witness for C8 at a concrete always-failing stub and prefix. -/
theorem C8_witness :
    (execute_with_data_error_retry stubTwiceN "Read failed: ").newError ≠
      some ("Read failed: " ++ "retry exhausted") :=
  (C8_retry_exhausted_unreachable stubTwiceN "Read failed: ").2

/-! Invariant machinery for C9. -/

/-- Every state `connect` can produce is the input state, the input state
marked connected (only reachable with a non-null handle), or the input state
with a new error message. -/
theorem connect_state_shape (s : ModbusConnection) (cout : Nat → CallOutcome) :
    (s.connect cout).state = s ∨
    ((s.connect cout).state = { s with connected_ := true } ∧ s.ctx_ = true) ∨
    (∃ e, (s.connect cout).state = { s with last_error_ := e }) := by
  by_cases hctx : s.ctx_ = true
  · by_cases hcn : s.connected_ = true
    · left
      simp [ModbusConnection.connect, hctx, hcn]
    · have hcn2 : s.connected_ = false := by
        revert hcn; cases s.connected_ <;> simp
      rcases h0 : cout 0 with _ | c0
      · exact Or.inr (Or.inl ⟨by
          simp [ModbusConnection.connect, connectLoop, hctx, hcn2, h0], hctx⟩)
      · by_cases hwb0 : c0 = EWOULDBLOCK ∨ c0 = EAGAIN
        · rcases h1 : cout 1 with _ | c1
          · exact Or.inr (Or.inl ⟨by
              simp [ModbusConnection.connect, connectLoop, hctx, hcn2, h0, h1,
                hwb0], hctx⟩)
          · by_cases hwb1 : c1 = EWOULDBLOCK ∨ c1 = EAGAIN
            · rcases h2 : cout 2 with _ | c2
              · exact Or.inr (Or.inl ⟨by
                  simp [ModbusConnection.connect, connectLoop, hctx, hcn2,
                    h0, h1, h2, hwb0, hwb1], hctx⟩)
              · exact Or.inr (Or.inr ⟨"Connection failed: " ++ modbus_strerror c2, by
                  simp [ModbusConnection.connect, connectLoop, hctx, hcn2,
                    h0, h1, h2, hwb0, hwb1]⟩)
            · exact Or.inr (Or.inr ⟨"Connection failed: " ++ modbus_strerror c1, by
                simp [ModbusConnection.connect, connectLoop, hctx, hcn2,
                  h0, h1, hwb0, hwb1]⟩)
        · exact Or.inr (Or.inr ⟨"Connection failed: " ++ modbus_strerror c0, by
            simp [ModbusConnection.connect, connectLoop, hctx, hcn2, h0, hwb0]⟩)
  · have hctx2 : s.ctx_ = false := by
      revert hctx; cases s.ctx_ <;> simp
    exact Or.inr (Or.inr ⟨"Invalid MODBUS context", by
      simp [ModbusConnection.connect, hctx2]⟩)

/-- The invariant transfers along any state change that keeps `ctx_` and
`connected_`. -/
theorem Inv_transfer (s u : ModbusConnection) (hc : u.ctx_ = s.ctx_)
    (hn : u.connected_ = s.connected_) (h : Inv s) : Inv u := by
  intro hcn
  rw [hn] at hcn
  rw [hc]
  exact h hcn

theorem connect_preserves_inv (s : ModbusConnection) (cout : Nat → CallOutcome)
    (h : Inv s) : Inv (s.connect cout).state := by
  rcases connect_state_shape s cout with hs | ⟨hs, hctx⟩ | ⟨e, hs⟩
  · rw [hs]; exact h
  · rw [hs]; intro _; exact hctx
  · rw [hs]; intro hcn; exact h hcn

/-- C9: the invariant "connected implies a non-null handle" is established by
construction and preserved by every operation of the session: connect,
disconnect, destruction, move construction and move assignment (for both
resulting objects), set_slave_id, set_response_timeout, and all eight
read/write wrappers. -/
theorem C9_connected_implies_handle
    (s t : ModbusConnection) (ip : String) (port : Nat) (alloc_ok : Bool)
    (cout : Nat → CallOutcome) (sout : CallOutcome)
    (primN : Nat → PrimOutcome Nat) (primL : Nat → PrimOutcome (List Nat))
    (primU : Nat → PrimOutcome Unit)
    (address count wv v0 sec usec : Nat) (slave : Int) (vl0 : List Nat)
    (b0 ws : Bool) :
    Inv (ModbusConnection.construct ip port alloc_ok) ∧
    (Inv s → Inv (s.connect cout).state) ∧
    (Inv s → Inv s.disconnect) ∧
    (Inv s → Inv s.destruct) ∧
    (Inv s → Inv s.moveCtor.1) ∧
    Inv s.moveCtor.2 ∧
    (Inv t → Inv (ModbusConnection.moveAssign s t).1) ∧
    Inv (ModbusConnection.moveAssign s t).2 ∧
    (Inv s → Inv (s.set_slave_id sout slave).2) ∧
    (Inv s → Inv (s.set_response_timeout sec usec)) ∧
    (Inv s → Inv (s.read_register primN address v0).1.state) ∧
    (Inv s → Inv (s.read_registers primL address count vl0).1.state) ∧
    (Inv s → Inv (s.write_register primU address wv).state) ∧
    (Inv s → Inv (s.write_registers primU address count vl0).state) ∧
    (Inv s → Inv (s.read_coil primN address b0).1.state) ∧
    (Inv s → Inv (s.read_coils primL address count vl0).1.state) ∧
    (Inv s → Inv (s.write_coil primU address ws).state) ∧
    (Inv s → Inv (s.write_coils primU address count vl0).state) := by
  refine ⟨?_, connect_preserves_inv s cout, ?_, ?_,
    fun h hcn => h hcn, ?_, fun h hcn => h hcn, ?_, ?_, ?_,
    fun h => Inv_transfer s _ (read_register_preserves s primN address v0).1
      (read_register_preserves s primN address v0).2 h,
    fun h => Inv_transfer s _ (read_registers_preserves s primL address count vl0).1
      (read_registers_preserves s primL address count vl0).2 h,
    fun h => Inv_transfer s _ (write_register_preserves s primU address wv).1
      (write_register_preserves s primU address wv).2 h,
    fun h => Inv_transfer s _ (write_registers_preserves s primU address count vl0).1
      (write_registers_preserves s primU address count vl0).2 h,
    fun h => Inv_transfer s _ (read_coil_preserves s primN address b0).1
      (read_coil_preserves s primN address b0).2 h,
    fun h => Inv_transfer s _ (read_coils_preserves s primL address count vl0).1
      (read_coils_preserves s primL address count vl0).2 h,
    fun h => Inv_transfer s _ (write_coil_preserves s primU address ws).1
      (write_coil_preserves s primU address ws).2 h,
    fun h => Inv_transfer s _ (write_coils_preserves s primU address count vl0).1
      (write_coils_preserves s primU address count vl0).2 h⟩
  · cases alloc_ok <;> simp [ModbusConnection.construct, Inv]
  · intro h
    unfold ModbusConnection.disconnect
    cases hctx : s.ctx_ <;> cases hcn : s.connected_ <;> simp_all [Inv]
  · intro h
    unfold ModbusConnection.destruct ModbusConnection.disconnect
    cases hctx : s.ctx_ <;> cases hcn : s.connected_ <;> simp_all [Inv]
  · intro hcn
    simp [ModbusConnection.moveCtor] at hcn
  · intro hcn
    simp [ModbusConnection.moveAssign] at hcn
  · intro h
    unfold ModbusConnection.set_slave_id
    cases hctx : s.ctx_ <;> cases sout <;> simp_all [Inv]
  · intro h
    simpa [ModbusConnection.set_response_timeout] using h

/-- Witness for C9 at concrete sessions: construction and a connect both
leave the invariant intact. -/
theorem C9_witness :
    Inv (ModbusConnection.construct "10.0.0.3" 502 true) ∧
    Inv ((⟨true, false, ""⟩ : ModbusConnection).connect stubConnectWB2).state :=
  ⟨(C9_connected_implies_handle ⟨true, false, ""⟩ ⟨false, false, ""⟩ "10.0.0.3"
      502 true stubConnectWB2 .ok stubOnceN stubOnceL stubOnceU
      0 0 0 0 0 0 1 [] false false).1,
   (C9_connected_implies_handle ⟨true, false, ""⟩ ⟨false, false, ""⟩ "10.0.0.3"
      502 true stubConnectWB2 .ok stubOnceN stubOnceL stubOnceU
      0 0 0 0 0 0 1 [] false false).2.1 (fun _ => rfl)⟩

/-! Success paths never touch `last_error_` (C10). -/

/-- A successful run of the retry helper assigns no error string. -/
theorem execute_success_no_error {α : Type} (prim : Nat → PrimOutcome α)
    (p : String) :
    (execute_with_data_error_retry prim p).result.isSome = true →
    (execute_with_data_error_retry prim p).newError = none := by
  rw [execute_characterize]
  rcases h0 : prim 0 with v | c
  · intro _; rfl
  · rcases hb : is_retryable_modbus_data_error c with _ | _
    · simp [hb]
    · rcases h1 : prim 1 with v | c2 <;> simp [hb, h1]

theorem connect_success_error (s : ModbusConnection) (cout : Nat → CallOutcome) :
    (s.connect cout).success = true →
    (s.connect cout).state.last_error_ = s.last_error_ := by
  by_cases hctx : s.ctx_ = true
  · by_cases hcn : s.connected_ = true
    · simp [ModbusConnection.connect, hctx, hcn]
    · have hcn2 : s.connected_ = false := by
        revert hcn; cases s.connected_ <;> simp
      rcases h0 : cout 0 with _ | c0
      · simp [ModbusConnection.connect, connectLoop, hctx, hcn2, h0]
      · by_cases hwb0 : c0 = EWOULDBLOCK ∨ c0 = EAGAIN
        · rcases h1 : cout 1 with _ | c1
          · simp [ModbusConnection.connect, connectLoop, hctx, hcn2, h0, h1, hwb0]
          · by_cases hwb1 : c1 = EWOULDBLOCK ∨ c1 = EAGAIN
            · rcases h2 : cout 2 with _ | c2 <;>
                simp [ModbusConnection.connect, connectLoop, hctx, hcn2,
                  h0, h1, h2, hwb0, hwb1]
            · simp [ModbusConnection.connect, connectLoop, hctx, hcn2,
                h0, h1, hwb0, hwb1]
        · simp [ModbusConnection.connect, connectLoop, hctx, hcn2, h0, hwb0]
  · have hctx2 : s.ctx_ = false := by
      revert hctx; cases s.ctx_ <;> simp
    simp [ModbusConnection.connect, hctx2]

theorem read_register_success_error (s : ModbusConnection)
    (prim : Nat → PrimOutcome Nat) (a v : Nat) :
    (s.read_register prim a v).1.success = true →
    (s.read_register prim a v).1.state.last_error_ = s.last_error_ := by
  cases hcn : s.connected_
  · simp [ModbusConnection.read_register, hcn]
  · intro h
    have hs : (execute_with_data_error_retry prim "Read failed: ").result.isSome
        = true := by
      simpa [ModbusConnection.read_register, hcn] using h
    simp [ModbusConnection.read_register, hcn,
      execute_success_no_error prim "Read failed: " hs, applyNewError]

theorem read_registers_success_error (s : ModbusConnection)
    (prim : Nat → PrimOutcome (List Nat)) (a cnt : Nat) (vs : List Nat) :
    (s.read_registers prim a cnt vs).1.success = true →
    (s.read_registers prim a cnt vs).1.state.last_error_ = s.last_error_ := by
  cases hcn : s.connected_
  · simp [ModbusConnection.read_registers, hcn]
  · intro h
    have hs : (execute_with_data_error_retry prim "Read failed: ").result.isSome
        = true := by
      simpa [ModbusConnection.read_registers, hcn] using h
    simp [ModbusConnection.read_registers, hcn,
      execute_success_no_error prim "Read failed: " hs, applyNewError]

theorem write_register_success_error (s : ModbusConnection)
    (prim : Nat → PrimOutcome Unit) (a v : Nat) :
    (s.write_register prim a v).success = true →
    (s.write_register prim a v).state.last_error_ = s.last_error_ := by
  cases hcn : s.connected_
  · simp [ModbusConnection.write_register, hcn]
  · intro h
    have hs : (execute_with_data_error_retry prim "Write failed: ").result.isSome
        = true := by
      simpa [ModbusConnection.write_register, hcn] using h
    simp [ModbusConnection.write_register, hcn,
      execute_success_no_error prim "Write failed: " hs, applyNewError]

theorem write_registers_success_error (s : ModbusConnection)
    (prim : Nat → PrimOutcome Unit) (a cnt : Nat) (vs : List Nat) :
    (s.write_registers prim a cnt vs).success = true →
    (s.write_registers prim a cnt vs).state.last_error_ = s.last_error_ := by
  cases hcn : s.connected_
  · simp [ModbusConnection.write_registers, hcn]
  · intro h
    have hs : (execute_with_data_error_retry prim "Write failed: ").result.isSome
        = true := by
      simpa [ModbusConnection.write_registers, hcn] using h
    simp [ModbusConnection.write_registers, hcn,
      execute_success_no_error prim "Write failed: " hs, applyNewError]

theorem read_coil_success_error (s : ModbusConnection)
    (prim : Nat → PrimOutcome Nat) (a : Nat) (b : Bool) :
    (s.read_coil prim a b).1.success = true →
    (s.read_coil prim a b).1.state.last_error_ = s.last_error_ := by
  cases hcn : s.connected_
  · simp [ModbusConnection.read_coil, hcn]
  · rcases hr : (execute_with_data_error_retry prim "Read coil failed: ").result
      with _ | v
    · simp [ModbusConnection.read_coil, hcn, hr]
    · intro _
      have hs : (execute_with_data_error_retry prim
          "Read coil failed: ").result.isSome = true := by
        rw [hr]; rfl
      simp [ModbusConnection.read_coil, hcn, hr,
        execute_success_no_error prim "Read coil failed: " hs, applyNewError]

theorem read_coils_success_error (s : ModbusConnection)
    (prim : Nat → PrimOutcome (List Nat)) (a cnt : Nat) (vs : List Nat) :
    (s.read_coils prim a cnt vs).1.success = true →
    (s.read_coils prim a cnt vs).1.state.last_error_ = s.last_error_ := by
  cases hcn : s.connected_
  · simp [ModbusConnection.read_coils, hcn]
  · intro h
    have hs : (execute_with_data_error_retry prim
        "Read coils failed: ").result.isSome = true := by
      simpa [ModbusConnection.read_coils, hcn] using h
    simp [ModbusConnection.read_coils, hcn,
      execute_success_no_error prim "Read coils failed: " hs, applyNewError]

theorem write_coil_success_error (s : ModbusConnection)
    (prim : Nat → PrimOutcome Unit) (a : Nat) (st : Bool) :
    (s.write_coil prim a st).success = true →
    (s.write_coil prim a st).state.last_error_ = s.last_error_ := by
  cases hcn : s.connected_
  · simp [ModbusConnection.write_coil, hcn]
  · intro h
    have hs : (execute_with_data_error_retry prim
        "Write coil failed: ").result.isSome = true := by
      simpa [ModbusConnection.write_coil, hcn] using h
    simp [ModbusConnection.write_coil, hcn,
      execute_success_no_error prim "Write coil failed: " hs, applyNewError]

theorem write_coils_success_error (s : ModbusConnection)
    (prim : Nat → PrimOutcome Unit) (a cnt : Nat) (vs : List Nat) :
    (s.write_coils prim a cnt vs).success = true →
    (s.write_coils prim a cnt vs).state.last_error_ = s.last_error_ := by
  cases hcn : s.connected_
  · simp [ModbusConnection.write_coils, hcn]
  · intro h
    have hs : (execute_with_data_error_retry prim
        "Write coils failed: ").result.isSome = true := by
      simpa [ModbusConnection.write_coils, hcn] using h
    simp [ModbusConnection.write_coils, hcn,
      execute_success_no_error prim "Write coils failed: " hs, applyNewError]

/-- C10: every successful operation leaves `last_error_` unchanged — `connect`
(whether already connected or freshly opened) and all eight read/write
wrappers keep the previous error string on success, so `get_last_error` after
a success may still describe an earlier failure. -/
theorem C10_success_preserves_last_error
    (s : ModbusConnection) (cout : Nat → CallOutcome)
    (primN : Nat → PrimOutcome Nat) (primL : Nat → PrimOutcome (List Nat))
    (primU : Nat → PrimOutcome Unit)
    (address count wv v0 : Nat) (vl0 : List Nat) (b0 ws : Bool) :
    ((s.connect cout).success = true →
      (s.connect cout).state.get_last_error = s.last_error_) ∧
    ((s.read_register primN address v0).1.success = true →
      (s.read_register primN address v0).1.state.get_last_error = s.last_error_) ∧
    ((s.read_registers primL address count vl0).1.success = true →
      (s.read_registers primL address count vl0).1.state.get_last_error =
        s.last_error_) ∧
    ((s.write_register primU address wv).success = true →
      (s.write_register primU address wv).state.get_last_error = s.last_error_) ∧
    ((s.write_registers primU address count vl0).success = true →
      (s.write_registers primU address count vl0).state.get_last_error =
        s.last_error_) ∧
    ((s.read_coil primN address b0).1.success = true →
      (s.read_coil primN address b0).1.state.get_last_error = s.last_error_) ∧
    ((s.read_coils primL address count vl0).1.success = true →
      (s.read_coils primL address count vl0).1.state.get_last_error =
        s.last_error_) ∧
    ((s.write_coil primU address ws).success = true →
      (s.write_coil primU address ws).state.get_last_error = s.last_error_) ∧
    ((s.write_coils primU address count vl0).success = true →
      (s.write_coils primU address count vl0).state.get_last_error =
        s.last_error_) :=
  ⟨connect_success_error s cout,
   read_register_success_error s primN address v0,
   read_registers_success_error s primL address count vl0,
   write_register_success_error s primU address wv,
   write_registers_success_error s primU address count vl0,
   read_coil_success_error s primN address b0,
   read_coils_success_error s primL address count vl0,
   write_coil_success_error s primU address ws,
   write_coils_success_error s primU address count vl0⟩

/-- Witness for C10: connect on an already-connected session succeeds and the
stale error text from an earlier failure is still readable afterwards. -/
theorem C10_witness :
    ((⟨true, true, "previous failure"⟩ : ModbusConnection).connect
      stubConnectWB2).success = true ∧
    ((⟨true, true, "previous failure"⟩ : ModbusConnection).connect
      stubConnectWB2).state.get_last_error = "previous failure" :=
  ⟨rfl,
   (C10_success_preserves_last_error ⟨true, true, "previous failure"⟩
      stubConnectWB2 stubOnceN stubOnceL stubOnceU 0 0 0 0 [] false false).1 rfl⟩

end caparoc
